import Mathlib

/-!
Shallow embedding of `FeaturePreprocessor.py` (feature_extraction repository).

Modelling choices, traceable line by line to the source:

* Python floats are modelled as exact rationals (`ℚ`); no floating-point
  rounding is modelled.  All latitude/longitude/twist arithmetic in the
  source is plain addition/subtraction of user-supplied values, so this is
  faithful up to float rounding.
* Radian angles are represented by their coefficient of π: the value
  `r : Rad` stands for the real angle `r * π`.  Every angle the source ever
  passes to `set_angles_ZYZ` is a rational multiple of π
  (`np.deg2rad(d) = d·π/180`, and the literal `-np.pi/2 = (-1/2)·π`), so
  this representation is exact.
* The shtns spectral engine (`sht.analys`, `rotation.apply_real`,
  `sht.synth`) is an external collaborator; it is modelled as an abstract
  record of functions (`Engine`), and every call the source makes into it
  is additionally recorded in an event trace so that ordering properties
  ("before the forward transform", "the second rotation is applied
  afterward") are statable.
* numpy arrays are modelled as a shape plus a flat data list plus a dtype.
  The element-wise slice assignment `data2d[:] = x` casts `x` to the
  destination dtype (`NpDtype.cast`); `np.asarray` aliases an existing
  ndarray and copies anything else (`PyArrayLike` / `asarray`).
* The source raises `ValueError` for shape/range violations and
  `RuntimeError` for the latitude mismatch; following the specification's
  error taxonomy these are the tagged errors `shapeError` / `rangeError` /
  `gridMismatch`.
-/

deriving instance DecidableEq for Except

namespace FP

/-- Scalar values: exact rationals standing in for Python floats. -/
abbrev Val := ℚ

/-- Radian angle represented by its coefficient of π: `(r : Rad)` denotes the
real angle `r * π`. -/
abbrev Rad := ℚ

/-- Model of `np.deg2rad`: `d` degrees is `(d/180)·π` radians, hence
coefficient `d / 180`. -/
def deg2rad (d : ℚ) : Rad := d / 180

/-- The literal `-np.pi / 2` passed to the second `set_angles_ZYZ` call in the
source (line 118): coefficient `-1/2` of π. -/
def negHalfPiRad : Rad := -(1 : ℚ) / 2

/-- numpy dtypes relevant to the model: double precision and 64-bit integers. -/
inductive NpDtype
  | float64
  | int64
deriving DecidableEq

/-- Element-wise cast performed by numpy when assigning into an array of the
given dtype.  `float64` keeps the (exactly represented) value; a float to
int64 cast is C truncation toward zero, which on `q = num/den` is the
T-division `num / den`. -/
def NpDtype.cast : NpDtype → ℚ → ℚ
  | .float64, q => q
  | .int64, q => ((Int.tdiv q.num (q.den : ℤ) : ℤ) : ℚ)

/-- Model of a numpy ndarray: a shape, the flat data, and a dtype. -/
structure NDArray where
  shape : List ℕ
  data : List Val
  dtype : NpDtype
deriving DecidableEq

/-- Model of `ndarray.astype(np.float64)` (source line 112): same contents,
double-precision dtype. -/
def NDArray.astypeF64 (a : NDArray) : NDArray := ⟨a.shape, a.data, .float64⟩

/-- Model of the slice assignment `a[:] = src` (source line 126): every
element of `src` is cast to `a`'s dtype; `a`'s shape and dtype are kept.
(numpy requires the shapes to be broadcast-compatible; in the source the
right-hand side is the synthesis output.) -/
def NDArray.setSlice (a src : NDArray) : NDArray :=
  ⟨a.shape, src.data.map (NpDtype.cast a.dtype), a.dtype⟩

/-- Argument passed for `data2d`: either an actual ndarray (so `np.asarray`
aliases it and in-place writes reach the caller) or a non-ndarray array-like
such as a nested list (so `np.asarray` builds a fresh temporary array). -/
inductive PyArrayLike
  | ndarray (a : NDArray)
  | nested (a : NDArray)
deriving DecidableEq

/-- Model of `np.asarray` (source line 81): identity view on an ndarray, a
fresh array with the inferred dtype for anything else. -/
def asarray : PyArrayLike → NDArray
  | .ndarray a => a
  | .nested a => a

/-- Tagged errors, following the specification's taxonomy for the source's
`ValueError` (shape/range) and `RuntimeError` (latitude mismatch). -/
inductive PErr
  | shapeError
  | rangeError
  | gridMismatch
deriving DecidableEq

/-- Calls made into the external shtns engine during one centering call, in
order: `rotation.set_angles_ZYZ` (with its three radian angles),
`transform.analys`, `rotation.apply_real`, `transform.synth`. -/
inductive Event
  | setAngles (z y z2 : Rad)
  | analysEv
  | applyRealEv
  | synthEv
deriving DecidableEq

/-- Abstract spectral-transform engine over an opaque coefficient type `C`:
forward transform, rotation application (taking the currently configured
angles), and inverse transform.  The specification treats shtns as exactly
this interface. -/
structure Engine (C : Type) where
  analys : NDArray → C
  applyReal : Rad × Rad × Rad → C → C
  synth : C → NDArray

/-- Observable outcome of one `scalar_center_and_rotate` call: the returned
value (or error), the caller's argument object after the call, and the trace
of engine calls made. -/
structure CallResult where
  result : Except PErr (Option NDArray)
  callerField : PyArrayLike
  events : List Event
deriving DecidableEq

/-- Longitude normalization performed at source lines 88-89:
`if clon < 0: clon += 360`. -/
def normClon (clon : ℚ) : ℚ := if clon < 0 then clon + 360 else clon

/-- Engine-call trace of an accepted `scalar_center_and_rotate` call (source
lines 109-126): configure the first Euler ZYZ triple, forward transform,
apply, configure the fixed triple `(0, -π/2, 0)`, apply, synthesize. -/
def pipelineEvents (clat nclon angle : ℚ) : List Event :=
  [Event.setAngles (deg2rad (180 - nclon)) (deg2rad (90 - clat)) (deg2rad angle),
   Event.analysEv, Event.applyRealEv,
   Event.setAngles 0 negHalfPiRad 0, Event.applyRealEv, Event.synthEv]

/-- The array produced by the spectral pipeline of an accepted call (source
lines 109-126): synth (rot₂ (rot₁ (analys (asarray(field).astype(float64))))),
with rot₁ configured as `(deg2rad(180-clon), deg2rad(90-clat), deg2rad angle)`
and rot₂ as the fixed `(0, -π/2, 0)`. -/
def pipelineOut {C : Type} (eng : Engine C) (field : PyArrayLike)
    (clat nclon angle : ℚ) : NDArray :=
  eng.synth (eng.applyReal (0, negHalfPiRad, 0)
    (eng.applyReal (deg2rad (180 - nclon), deg2rad (90 - clat), deg2rad angle)
      (eng.analys (NDArray.astypeF64 (asarray field)))))

/-- Behaviour of an accepted call after all validation passed (source lines
101-130): run the spectral pipeline, then either assign the result
element-wise into the caller's array (`inplace=True`; a non-ndarray argument
receives the write only in the `asarray` temporary, so the caller's object is
unchanged) and return `None`, or return the fresh result array. -/
def runPipeline {C : Type} (eng : Engine C) (field : PyArrayLike)
    (clat nclon angle : ℚ) (inplace : Bool) : CallResult :=
  if inplace then
    match field with
    | .ndarray a =>
        ⟨.ok none,
         .ndarray (NDArray.setSlice a (pipelineOut eng field clat nclon angle)),
         pipelineEvents clat nclon angle⟩
    | .nested a => ⟨.ok none, .nested a, pipelineEvents clat nclon angle⟩
  else
    ⟨.ok (some (pipelineOut eng field clat nclon angle)), field,
     pipelineEvents clat nclon angle⟩

/-- Validation of the already-normalized longitude, the latitude and the
twist angle (source lines 90-99), then the accepted-call pipeline. -/
def afterShapeCheck {C : Type} (eng : Engine C) (field : PyArrayLike)
    (clat nclon angle : ℚ) (inplace : Bool) : CallResult :=
  if nclon > 360 ∨ nclon < 0 then ⟨.error .rangeError, field, []⟩
  else if clat > 90 ∨ clat < -90 then ⟨.error .rangeError, field, []⟩
  else if angle < 0 ∨ angle > 360 then ⟨.error .rangeError, field, []⟩
  else runPipeline eng field clat nclon angle inplace

/-- Model of `FeaturePreprocessor.scalar_center_and_rotate` (source lines
47-130): `np.asarray`, the 2-dimensionality check, longitude normalization,
range validation, then the two-rotation spectral pipeline. -/
def scalar_center_and_rotate {C : Type} (eng : Engine C) (field : PyArrayLike)
    (clat clon angle : ℚ) (inplace : Bool) : CallResult :=
  if (asarray field).shape.length ≠ 2 then ⟨.error .shapeError, field, []⟩
  else afterShapeCheck eng field clat (normClon clon) angle inplace

/-- A call is accepted when it returns rather than raising. -/
def isAccepted (r : CallResult) : Bool :=
  match r.result with
  | .ok _ => true
  | .error _ => false

/-- Closeness predicate of `np.allclose` with its default tolerances
(`rtol = 1e-5`, `atol = 1e-8`): `|a - b| ≤ atol + rtol * |b|`. -/
abbrev latClose (a b : ℚ) : Prop :=
  |a - b| ≤ 1 / 100000000 + 1 / 100000 * |b|

/-- Boolean element test used by the model of `np.allclose`. -/
def npIsClose (a b : ℚ) : Bool := decide (latClose a b)

/-- Model of `np.allclose(a, b)` on equal-length 1-D arrays: every pair of
corresponding elements is close.  (The source only ever compares the engine's
`nlat` realized latitudes with the caller's `nlat` latitudes, so the
broadcast rules of numpy for other shapes are irrelevant here.) -/
def npAllClose (a b : List ℚ) : Bool :=
  (a.length == b.length) && ((a.zip b).all fun p => npIsClose p.1 p.2)

/-- Engine calls made by `FeaturePreprocessor.__init__`, in order: the
`shtns.sht` constructor, optionally one `set_grid` call (quick-init Gaussian
or DCT regular), and the `shtns.rotation` constructor. -/
inductive InitEvent
  | shtInit
  | setGridGaussian
  | setGridRegular
  | rotationInit
deriving DecidableEq

/-- Recognizer for the two `set_grid` events. -/
def isSetGrid : InitEvent → Bool
  | .setGridGaussian => true
  | .setGridRegular => true
  | _ => false

/-- Outcome of constructing a `FeaturePreprocessor`: success (a usable
instance) or an error, plus the trace of engine calls made. -/
structure InitResult where
  result : Except PErr Unit
  events : List InitEvent
deriving DecidableEq

/-- Grid-setup dispatch of source lines 30-35: `set_grid` is called for the
exact strings "gaussian" and "regular" and for no other grid-type tag. -/
def gridSetupEvents (gridtype : String) : List InitEvent :=
  if gridtype = "gaussian" then [InitEvent.setGridGaussian]
  else if gridtype = "regular" then [InitEvent.setGridRegular]
  else []

/-- Model of `FeaturePreprocessor.__init__` (source lines 7-45).
`engineLatDeg` is the engine-derived latitude list
`np.rad2deg(np.arcsin(transform.cos_theta))` in the engine's own traversal
order, supplied by the external engine; the source reverses it (`[::-1]`,
line 38) and compares with the caller's latitudes via `np.allclose`
(line 39), raising on mismatch (line 42) before the rotation operator is
built (line 45). -/
def featurePreprocessorInit (lat _lon engineLatDeg : List ℚ)
    (gridtype : String) : InitResult :=
  if npAllClose engineLatDeg.reverse lat then
    ⟨.ok (), [InitEvent.shtInit] ++ gridSetupEvents gridtype
      ++ [InitEvent.rotationInit]⟩
  else
    ⟨.error .gridMismatch, [InitEvent.shtInit] ++ gridSetupEvents gridtype⟩

/-- A concrete engine instance used to evaluate the model on sample inputs:
coefficients are the arrays themselves, rotations are the identity. -/
def trivEngine : Engine NDArray :=
  ⟨fun a => a, fun _ c => c, fun c => c⟩

/-- The rational 1/2, built from the raw numerator/denominator constructor so
that kernel evaluation never has to normalize a fraction. -/
def halfQ : ℚ := ⟨1, 2, by decide, Nat.coprime_one_left 2⟩

/-- A concrete engine whose synthesis output is the constant array
`[[1/2]]`, exhibiting a non-integer double-precision synthesis value. -/
def halfEngine : Engine Unit :=
  ⟨fun _ => (), fun _ _ => (), fun _ => ⟨[1, 1], [halfQ], .float64⟩⟩

/-- A concrete 1×1 int64 field. -/
def intField : NDArray := ⟨[1, 1], [3], .int64⟩

/-- A concrete 1×1 float64 field. -/
def exField : PyArrayLike := .ndarray ⟨[1, 1], [5], .float64⟩

theorem runPipeline_events {C : Type} (eng : Engine C) (field : PyArrayLike)
    (clat nclon angle : ℚ) (ip : Bool) :
    (runPipeline eng field clat nclon angle ip).events
      = pipelineEvents clat nclon angle := by
  cases ip <;> cases field <;> rfl

theorem runPipeline_isAccepted {C : Type} (eng : Engine C)
    (field : PyArrayLike) (clat nclon angle : ℚ) (ip : Bool) :
    isAccepted (runPipeline eng field clat nclon angle ip) = true := by
  cases ip <;> cases field <;> rfl

theorem runPipeline_ok {C : Type} (eng : Engine C) (field : PyArrayLike)
    (clat nclon angle : ℚ) (ip : Bool) :
    ∃ v, (runPipeline eng field clat nclon angle ip).result = .ok v := by
  cases ip <;> cases field <;> exact ⟨_, rfl⟩

theorem scr_cases {C : Type} (eng : Engine C) (field : PyArrayLike)
    (clat clon angle : ℚ) (ip : Bool) :
    (∃ e, scalar_center_and_rotate eng field clat clon angle ip
        = ⟨.error e, field, []⟩) ∨
      scalar_center_and_rotate eng field clat clon angle ip
        = runPipeline eng field clat (normClon clon) angle ip := by
  unfold scalar_center_and_rotate afterShapeCheck
  split_ifs <;> first
    | exact Or.inl ⟨_, rfl⟩
    | exact Or.inr rfl

theorem accepted_run {C : Type} (eng : Engine C) (field : PyArrayLike)
    (clat clon angle : ℚ) (ip : Bool)
    (h2 : (asarray field).shape.length = 2)
    (hlon0 : 0 ≤ normClon clon) (hlon1 : normClon clon ≤ 360)
    (hlat0 : -90 ≤ clat) (hlat1 : clat ≤ 90)
    (hang0 : 0 ≤ angle) (hang1 : angle ≤ 360) :
    scalar_center_and_rotate eng field clat clon angle ip
      = runPipeline eng field clat (normClon clon) angle ip := by
  unfold scalar_center_and_rotate afterShapeCheck
  rw [if_neg (by simp [h2]), if_neg (by push_neg; exact ⟨hlon1, hlon0⟩),
    if_neg (by push_neg; exact ⟨hlat1, hlat0⟩),
    if_neg (by push_neg; exact ⟨hang0, hang1⟩)]

/-- C1: for every center request accepted by the centering operation (2-D
field, normalized `clon` in `[0,360]`, `clat` in `[-90,90]`, twist in
`[0,360]`), the first rotation applied to the spectral coefficients is
configured with the Euler Z-Y-Z triple `(deg2rad (180 - normClon clon),
deg2rad (90 - clat), deg2rad twist)`, and afterwards the fixed,
request-independent triple `(0, -π/2, 0)` is applied, in that order, before
the inverse transform. -/
theorem spec_c1_rotation_order {C : Type} (eng : Engine C)
    (field : PyArrayLike) (clat clon angle : ℚ) (ip : Bool)
    (h2 : (asarray field).shape.length = 2)
    (hlon0 : 0 ≤ normClon clon) (hlon1 : normClon clon ≤ 360)
    (hlat0 : -90 ≤ clat) (hlat1 : clat ≤ 90)
    (hang0 : 0 ≤ angle) (hang1 : angle ≤ 360) :
    (scalar_center_and_rotate eng field clat clon angle ip).events =
      [Event.setAngles (deg2rad (180 - normClon clon)) (deg2rad (90 - clat))
        (deg2rad angle),
       Event.analysEv, Event.applyRealEv,
       Event.setAngles 0 negHalfPiRad 0, Event.applyRealEv, Event.synthEv] := by
  rw [accepted_run eng field clat clon angle ip h2 hlon0 hlon1 hlat0 hlat1
    hang0 hang1, runPipeline_events]
  rfl

/-- Witness for C1 at a concrete accepted request. -/
theorem spec_c1_rotation_order_witness :
    (scalar_center_and_rotate trivEngine exField 10 20 30 false).events =
      [Event.setAngles (deg2rad (180 - normClon 20)) (deg2rad (90 - 10))
        (deg2rad 30),
       Event.analysEv, Event.applyRealEv,
       Event.setAngles 0 negHalfPiRad 0, Event.applyRealEv, Event.synthEv] :=
  spec_c1_rotation_order trivEngine exField 10 20 30 false (by rfl)
    (by decide) (by decide) (by decide) (by decide) (by decide) (by decide)

/-- C5: with a valid 2-D field, `center_lat = 95`, `center_lat = -91`,
`twist = 400` and `twist = -1` each raise `RangeError`, while the boundary
values `center_lat = 90`, `center_lat = -90`, `twist = 0` and `twist = 360`
are all accepted. -/
theorem spec_c5_range_boundaries {C : Type} (eng : Engine C)
    (field : PyArrayLike) (ip : Bool)
    (h2 : (asarray field).shape.length = 2) :
    (scalar_center_and_rotate eng field 95 100 0 ip).result
        = .error .rangeError ∧
    (scalar_center_and_rotate eng field (-91) 100 0 ip).result
        = .error .rangeError ∧
    (scalar_center_and_rotate eng field 0 100 400 ip).result
        = .error .rangeError ∧
    (scalar_center_and_rotate eng field 0 100 (-1) ip).result
        = .error .rangeError ∧
    isAccepted (scalar_center_and_rotate eng field 90 100 0 ip) = true ∧
    isAccepted (scalar_center_and_rotate eng field (-90) 100 0 ip) = true ∧
    isAccepted (scalar_center_and_rotate eng field 0 100 0 ip) = true ∧
    isAccepted (scalar_center_and_rotate eng field 0 100 360 ip) = true := by
  refine ⟨?_, ?_, ?_, ?_, ?_, ?_, ?_, ?_⟩ <;>
    norm_num [scalar_center_and_rotate, afterShapeCheck, normClon, h2,
      runPipeline_isAccepted]

/-- Witness for C5 at a concrete field. -/
theorem spec_c5_range_boundaries_witness :
    (scalar_center_and_rotate trivEngine exField 95 100 0 false).result
        = .error .rangeError ∧
    (scalar_center_and_rotate trivEngine exField (-91) 100 0 false).result
        = .error .rangeError ∧
    (scalar_center_and_rotate trivEngine exField 0 100 400 false).result
        = .error .rangeError ∧
    (scalar_center_and_rotate trivEngine exField 0 100 (-1) false).result
        = .error .rangeError ∧
    isAccepted (scalar_center_and_rotate trivEngine exField 90 100 0 false)
        = true ∧
    isAccepted (scalar_center_and_rotate trivEngine exField (-90) 100 0 false)
        = true ∧
    isAccepted (scalar_center_and_rotate trivEngine exField 0 100 0 false)
        = true ∧
    isAccepted (scalar_center_and_rotate trivEngine exField 0 100 360 false)
        = true :=
  spec_c5_range_boundaries trivEngine exField false (by rfl)

/-- C6: a call with `center_lon = -30` behaves exactly like a call with
`center_lon = 330` (same result, same accept/reject outcome, same trace, same
effect on the caller's field); and more generally any `clon < 0` is shifted
by `+360` before range validation and before the first Euler z-angle is
computed (the remaining pipeline `afterShapeCheck` receives `clon + 360`). -/
theorem spec_c6_lon_normalization :
    (∀ (C : Type) (eng : Engine C) (field : PyArrayLike) (clat angle : ℚ)
        (ip : Bool),
        scalar_center_and_rotate eng field clat (-30) angle ip
          = scalar_center_and_rotate eng field clat 330 angle ip) ∧
    (∀ (C : Type) (eng : Engine C) (field : PyArrayLike)
        (clat clon angle : ℚ) (ip : Bool), clon < 0 →
        scalar_center_and_rotate eng field clat clon angle ip
          = if (asarray field).shape.length ≠ 2
            then ⟨.error .shapeError, field, []⟩
            else afterShapeCheck eng field clat (clon + 360) angle ip) := by
  constructor
  · intro C eng field clat angle ip
    unfold scalar_center_and_rotate
    norm_num [normClon]
  · intro C eng field clat clon angle ip h
    unfold scalar_center_and_rotate
    simp only [normClon, if_pos h]

/-- Witness for C6 at a concrete negative longitude. -/
theorem spec_c6_lon_normalization_witness :
    scalar_center_and_rotate trivEngine exField 10 (-30) 0 false
      = if (asarray exField).shape.length ≠ 2
        then ⟨.error .shapeError, exField, []⟩
        else afterShapeCheck trivEngine exField 10 ((-30) + 360) 0 false :=
  spec_c6_lon_normalization.2 NDArray trivEngine exField 10 (-30) 0 false
    (by decide)

/-- C7: a call with `clon = 360` is accepted (the bound of the validated
interval `[0,360]` is inclusive and `360` is not normalized back to `0`), and
its first configured rotation has z-angle `deg2rad (180 - 360) =
deg2rad (-180)`, different from the `deg2rad 180` that `clon = 0` yields. -/
theorem spec_c7_clon360_accepted {C : Type} (eng : Engine C)
    (field : PyArrayLike) (clat angle : ℚ) (ip : Bool)
    (h2 : (asarray field).shape.length = 2)
    (hlat0 : -90 ≤ clat) (hlat1 : clat ≤ 90)
    (hang0 : 0 ≤ angle) (hang1 : angle ≤ 360) :
    isAccepted (scalar_center_and_rotate eng field clat 360 angle ip)
        = true ∧
    (scalar_center_and_rotate eng field clat 360 angle ip).events.head?
        = some (Event.setAngles (deg2rad (180 - 360)) (deg2rad (90 - clat))
            (deg2rad angle)) ∧
    (scalar_center_and_rotate eng field clat 0 angle ip).events.head?
        = some (Event.setAngles (deg2rad 180) (deg2rad (90 - clat))
            (deg2rad angle)) ∧
    deg2rad (180 - 360) = deg2rad (-180) ∧
    deg2rad (-180) ≠ deg2rad 180 := by
  have h360 : normClon 360 = 360 := by norm_num [normClon]
  have h0 : normClon 0 = 0 := by norm_num [normClon]
  refine ⟨?_, ?_, ?_, by norm_num [deg2rad], by norm_num [deg2rad]⟩
  · rw [accepted_run eng field clat 360 angle ip h2 (by rw [h360]; norm_num)
      (by rw [h360]) hlat0 hlat1 hang0 hang1]
    exact runPipeline_isAccepted eng field clat (normClon 360) angle ip
  · rw [accepted_run eng field clat 360 angle ip h2 (by rw [h360]; norm_num)
      (by rw [h360]) hlat0 hlat1 hang0 hang1, runPipeline_events]
    simp [pipelineEvents, h360]
  · rw [accepted_run eng field clat 0 angle ip h2 (by rw [h0])
      (by rw [h0]; norm_num) hlat0 hlat1 hang0 hang1, runPipeline_events]
    simp [pipelineEvents, h0]

/-- Witness for C7 at a concrete request. -/
theorem spec_c7_clon360_accepted_witness :
    isAccepted (scalar_center_and_rotate trivEngine exField 10 360 30 false)
        = true ∧
    (scalar_center_and_rotate trivEngine exField 10 360 30 false).events.head?
        = some (Event.setAngles (deg2rad (180 - 360)) (deg2rad (90 - 10))
            (deg2rad 30)) ∧
    (scalar_center_and_rotate trivEngine exField 10 0 30 false).events.head?
        = some (Event.setAngles (deg2rad 180) (deg2rad (90 - 10))
            (deg2rad 30)) ∧
    deg2rad (180 - 360) = deg2rad (-180) ∧
    deg2rad (-180) ≠ deg2rad 180 :=
  spec_c7_clon360_accepted trivEngine exField 10 30 false (by rfl)
    (by decide) (by decide) (by decide) (by decide)

/-- C8: every call rejected by input validation raises before the forward
transform or any rotation is performed (its engine-call trace is empty), and
it never mutates the caller's field, even with `in_place = True`. -/
theorem spec_c8_reject_no_mutation {C : Type} (eng : Engine C)
    (field : PyArrayLike) (clat clon angle : ℚ) (ip : Bool) (e : PErr)
    (h : (scalar_center_and_rotate eng field clat clon angle ip).result
      = .error e) :
    (scalar_center_and_rotate eng field clat clon angle ip).events = [] ∧
    (scalar_center_and_rotate eng field clat clon angle ip).callerField
      = field := by
  rcases scr_cases eng field clat clon angle ip with ⟨e', he⟩ | hrun
  · rw [he]
    exact ⟨rfl, rfl⟩
  · rcases runPipeline_ok eng field clat (normClon clon) angle ip with ⟨v, hv⟩
    rw [hrun, hv] at h
    simp at h

/-- Witness for C8: a rejected in-place call (`clat = 95`) leaves an empty
trace and the caller's field unchanged. -/
theorem spec_c8_reject_no_mutation_witness :
    (scalar_center_and_rotate trivEngine exField 95 100 0 true).events = [] ∧
    (scalar_center_and_rotate trivEngine exField 95 100 0 true).callerField
      = exField :=
  spec_c8_reject_no_mutation trivEngine exField 95 100 0 true
    PErr.rangeError (by decide)

theorem map_cast_float64 (l : List ℚ) :
    l.map (NpDtype.cast .float64) = l := by
  induction l with
  | nil => rfl
  | cons x xs ih => simp [NpDtype.cast, ih]

/-- C2 (counterexample): on an accepted call with an int64 ndarray field, the
in-place branch writes the dtype-cast (truncated) synthesis result into the
caller's array, while the copy branch returns the untruncated doubles, so the
two branches are not numerically identical: in place the field becomes
`[[0]]` while the returned array is `[[1/2]]`. -/
theorem spec_c2_counterexample :
    (scalar_center_and_rotate halfEngine (.ndarray intField) 0 100 0
        true).result = .ok none ∧
    (scalar_center_and_rotate halfEngine (.ndarray intField) 0 100 0
        true).callerField = .ndarray ⟨[1, 1], [0], .int64⟩ ∧
    (scalar_center_and_rotate halfEngine (.ndarray intField) 0 100 0
        false).result = .ok (some ⟨[1, 1], [halfQ], .float64⟩) ∧
    ((0 : ℚ) = halfQ → False) := by
  refine ⟨by decide, by decide, by decide, by decide⟩

/-- C2 (amended): for a float64 ndarray field, an accepted in-place call
overwrites the field element-wise with exactly the data the copy branch
returns and yields `None`, while the copy branch returns a new array and
leaves the field untouched; the two branches then hold numerically identical
contents. -/
theorem spec_c2_inplace_copy_equiv {C : Type} (eng : Engine C) (a : NDArray)
    (clat clon angle : ℚ)
    (hdt : a.dtype = .float64)
    (h2 : a.shape.length = 2)
    (hlon0 : 0 ≤ normClon clon) (hlon1 : normClon clon ≤ 360)
    (hlat0 : -90 ≤ clat) (hlat1 : clat ≤ 90)
    (hang0 : 0 ≤ angle) (hang1 : angle ≤ 360) :
    (scalar_center_and_rotate eng (.ndarray a) clat clon angle true).result
        = .ok none ∧
    (scalar_center_and_rotate eng (.ndarray a) clat clon angle
        true).callerField
      = .ndarray ⟨a.shape,
          (pipelineOut eng (.ndarray a) clat (normClon clon) angle).data,
          a.dtype⟩ ∧
    (scalar_center_and_rotate eng (.ndarray a) clat clon angle false).result
      = .ok (some (pipelineOut eng (.ndarray a) clat (normClon clon)
          angle)) ∧
    (scalar_center_and_rotate eng (.ndarray a) clat clon angle
        false).callerField = .ndarray a := by
  rw [accepted_run eng (.ndarray a) clat clon angle true h2 hlon0 hlon1
      hlat0 hlat1 hang0 hang1,
    accepted_run eng (.ndarray a) clat clon angle false h2 hlon0 hlon1
      hlat0 hlat1 hang0 hang1]
  refine ⟨rfl, ?_, rfl, rfl⟩
  simp [runPipeline, NDArray.setSlice, hdt, map_cast_float64]

/-- Witness for the amended C2 at a concrete float64 field. -/
theorem spec_c2_inplace_copy_equiv_witness :
    (scalar_center_and_rotate trivEngine
        (.ndarray ⟨[1, 1], [5], .float64⟩) 10 20 30 true).result
        = .ok none ∧
    (scalar_center_and_rotate trivEngine
        (.ndarray ⟨[1, 1], [5], .float64⟩) 10 20 30 true).callerField
      = .ndarray ⟨(⟨[1, 1], [5], .float64⟩ : NDArray).shape,
          (pipelineOut trivEngine (.ndarray ⟨[1, 1], [5], .float64⟩) 10
            (normClon 20) 30).data,
          (⟨[1, 1], [5], .float64⟩ : NDArray).dtype⟩ ∧
    (scalar_center_and_rotate trivEngine
        (.ndarray ⟨[1, 1], [5], .float64⟩) 10 20 30 false).result
      = .ok (some (pipelineOut trivEngine
          (.ndarray ⟨[1, 1], [5], .float64⟩) 10 (normClon 20) 30)) ∧
    (scalar_center_and_rotate trivEngine
        (.ndarray ⟨[1, 1], [5], .float64⟩) 10 20 30 false).callerField
      = .ndarray ⟨[1, 1], [5], .float64⟩ :=
  spec_c2_inplace_copy_equiv trivEngine ⟨[1, 1], [5], .float64⟩ 10 20 30
    (by decide) (by decide) (by decide) (by decide) (by decide) (by decide)
    (by decide) (by decide)

/-- A concrete 2-D field whose (1, 3) shape matches no (nlat, nlon) grid pair
with nlat·nlon different from 3. -/
def exField13 : PyArrayLike := .ndarray ⟨[1, 3], [1, 2, 3], .float64⟩

/-- A concrete 1-D field. -/
def exField1d : PyArrayLike := .ndarray ⟨[3], [1, 2, 3], .float64⟩

/-- C3 (counterexample): a 2-D field of shape (1, 3) — which differs from the
grid's (nlat, nlon) for any grid with more than 3 points — is not rejected at
all: validation accepts the call and the spectral pipeline runs (the trace
contains the forward transform), so no `ShapeError` is raised before
transform work. -/
theorem spec_c3_counterexample :
    isAccepted (scalar_center_and_rotate trivEngine exField13 0 100 0 false)
        = true ∧
    Event.analysEv
      ∈ (scalar_center_and_rotate trivEngine exField13 0 100 0
          false).events ∧
    (scalar_center_and_rotate trivEngine exField13 0 100 0 false).events
      ≠ [] := by
  refine ⟨by decide, by decide, by decide⟩

/-- C3 (amended): a field that is not exactly 2-dimensional raises
`ShapeError` before any transform work; but no check of a 2-D field's shape
against the grid's (nlat, nlon) exists — every 2-D field passing the range
checks is accepted and handed to the spectral pipeline. -/
theorem spec_c3_shape_validation :
    (∀ (C : Type) (eng : Engine C) (field : PyArrayLike)
        (clat clon angle : ℚ) (ip : Bool),
        (asarray field).shape.length ≠ 2 →
        scalar_center_and_rotate eng field clat clon angle ip
          = ⟨.error .shapeError, field, []⟩) ∧
    (∀ (C : Type) (eng : Engine C) (field : PyArrayLike)
        (clat clon angle : ℚ) (ip : Bool),
        (asarray field).shape.length = 2 →
        0 ≤ normClon clon → normClon clon ≤ 360 →
        -90 ≤ clat → clat ≤ 90 → 0 ≤ angle → angle ≤ 360 →
        isAccepted (scalar_center_and_rotate eng field clat clon angle ip)
          = true) := by
  constructor
  · intro C eng field clat clon angle ip h
    unfold scalar_center_and_rotate
    rw [if_pos h]
  · intro C eng field clat clon angle ip h2 hlon0 hlon1 hlat0 hlat1 hang0
      hang1
    rw [accepted_run eng field clat clon angle ip h2 hlon0 hlon1 hlat0 hlat1
      hang0 hang1]
    exact runPipeline_isAccepted eng field clat (normClon clon) angle ip

/-- Witness for the amended C3: a 1-D field is rejected with `ShapeError`
and an empty trace. -/
theorem spec_c3_shape_validation_witness :
    scalar_center_and_rotate trivEngine exField1d 0 100 0 false
      = ⟨.error .shapeError, exField1d, []⟩ :=
  spec_c3_shape_validation.1 NDArray trivEngine exField1d 0 100 0 false
    (by decide)

/-- C10: an accepted in-place call on an ndarray assigns the
double-precision pipeline result element-wise through the slice write,
casting it to the array's original dtype, and returns `None`; on a
non-ndarray argument `np.asarray` builds a fresh temporary, so the in-place
write lands there, the caller's data is left unchanged, and `None` is still
returned. -/
theorem spec_c10_inplace_dtype_cast {C : Type} (eng : Engine C) (a : NDArray)
    (clat clon angle : ℚ)
    (h2 : a.shape.length = 2)
    (hlon0 : 0 ≤ normClon clon) (hlon1 : normClon clon ≤ 360)
    (hlat0 : -90 ≤ clat) (hlat1 : clat ≤ 90)
    (hang0 : 0 ≤ angle) (hang1 : angle ≤ 360) :
    (scalar_center_and_rotate eng (.ndarray a) clat clon angle
        true).callerField
      = .ndarray ⟨a.shape,
          (pipelineOut eng (.ndarray a) clat (normClon clon)
            angle).data.map (NpDtype.cast a.dtype),
          a.dtype⟩ ∧
    (scalar_center_and_rotate eng (.ndarray a) clat clon angle true).result
      = .ok none ∧
    (scalar_center_and_rotate eng (.nested a) clat clon angle
        true).callerField = .nested a ∧
    (scalar_center_and_rotate eng (.nested a) clat clon angle true).result
      = .ok none := by
  rw [accepted_run eng (.ndarray a) clat clon angle true h2 hlon0 hlon1
      hlat0 hlat1 hang0 hang1,
    accepted_run eng (.nested a) clat clon angle true h2 hlon0 hlon1 hlat0
      hlat1 hang0 hang1]
  exact ⟨rfl, rfl, rfl, rfl⟩

/-- Witness for C10 at a concrete int64 field, where the cast truncates. -/
theorem spec_c10_inplace_dtype_cast_witness :
    (scalar_center_and_rotate halfEngine (.ndarray intField) 0 100 0
        true).callerField
      = .ndarray ⟨intField.shape,
          (pipelineOut halfEngine (.ndarray intField) 0 (normClon 100)
            0).data.map (NpDtype.cast intField.dtype),
          intField.dtype⟩ ∧
    (scalar_center_and_rotate halfEngine (.ndarray intField) 0 100 0
        true).result = .ok none ∧
    (scalar_center_and_rotate halfEngine (.nested intField) 0 100 0
        true).callerField = .nested intField ∧
    (scalar_center_and_rotate halfEngine (.nested intField) 0 100 0
        true).result = .ok none :=
  spec_c10_inplace_dtype_cast halfEngine intField 0 100 0 (by decide)
    (by decide) (by decide) (by decide) (by decide) (by decide) (by decide)

theorem npAllClose_iff_forall (a b : List ℚ) :
    npAllClose a b = true ↔ List.Forall₂ latClose a b := by
  induction a generalizing b with
  | nil =>
    cases b with
    | nil => simp [npAllClose, List.Forall₂.nil]
    | cons y ys => simp [npAllClose, List.forall₂_nil_left_iff]
  | cons x xs ih =>
    cases b with
    | nil => simp [npAllClose, List.forall₂_nil_right_iff]
    | cons y ys =>
      rw [List.forall₂_cons, ← ih]
      simp only [npAllClose, npIsClose, List.zip_cons_cons, List.all_cons,
        Bool.and_eq_true, decide_eq_true_eq, List.length_cons, beq_iff_eq,
        add_left_inj]
      tauto

/-- C4: construction succeeds if and only if every element of the caller's
latitude array is within the `np.allclose` tolerance of the corresponding
engine-derived latitude (the arcsin-of-colatitude-cosines list, in degrees,
reversed to ascending order); on mismatch construction raises
`GridMismatchError` and no usable instance is produced. -/
theorem spec_c4_grid_validation (lat lon engineLatDeg : List ℚ)
    (gt : String) :
    ((featurePreprocessorInit lat lon engineLatDeg gt).result = .ok ()
        ↔ List.Forall₂ latClose engineLatDeg.reverse lat) ∧
    (¬ List.Forall₂ latClose engineLatDeg.reverse lat →
      (featurePreprocessorInit lat lon engineLatDeg gt).result
        = .error .gridMismatch) := by
  have h := npAllClose_iff_forall engineLatDeg.reverse lat
  unfold featurePreprocessorInit
  by_cases hc : npAllClose engineLatDeg.reverse lat = true
  · rw [if_pos hc]
    exact ⟨iff_of_true rfl (h.mp hc), fun hn => absurd (h.mp hc) hn⟩
  · rw [if_neg hc]
    exact ⟨iff_of_false (by simp) fun hf => hc (h.mpr hf), fun _ => rfl⟩

/-- Witness for C4: a one-point latitude array off by a full degree is
rejected with `GridMismatchError`. -/
theorem spec_c4_grid_validation_witness :
    (featurePreprocessorInit [0] [0] [1] "regular").result
      = .error .gridMismatch :=
  (spec_c4_grid_validation [0] [0] [1] "regular").2 (by
    intro hf
    rcases hf with _ | ⟨h1, _⟩
    exact absurd h1 (by norm_num [latClose]))

/-- C9: for every grid-type tag other than the exact strings "gaussian" and
"regular", the constructor makes no `set_grid` call at all and raises no
error for the tag itself (its only possible failure is the latitude
mismatch); and the two recognized tags select mutually exclusive `set_grid`
paths. -/
theorem spec_c9_gridtype_dispatch (lat lon engineLatDeg : List ℚ)
    (gt : String) (hg : gt ≠ "gaussian") (hr : gt ≠ "regular") :
    (∀ e ∈ (featurePreprocessorInit lat lon engineLatDeg gt).events,
        isSetGrid e = false) ∧
    ((featurePreprocessorInit lat lon engineLatDeg gt).result = .ok ()
      ∨ (featurePreprocessorInit lat lon engineLatDeg gt).result
          = .error .gridMismatch) ∧
    (InitEvent.setGridGaussian
        ∈ (featurePreprocessorInit lat lon engineLatDeg "gaussian").events ∧
      InitEvent.setGridRegular
        ∉ (featurePreprocessorInit lat lon engineLatDeg "gaussian").events) ∧
    (InitEvent.setGridRegular
        ∈ (featurePreprocessorInit lat lon engineLatDeg "regular").events ∧
      InitEvent.setGridGaussian
        ∉ (featurePreprocessorInit lat lon engineLatDeg "regular").events) := by
  have hge : gridSetupEvents gt = [] := by
    unfold gridSetupEvents
    rw [if_neg hg, if_neg hr]
  have hgg : gridSetupEvents "gaussian" = [InitEvent.setGridGaussian] := rfl
  have hgr : gridSetupEvents "regular" = [InitEvent.setGridRegular] := rfl
  unfold featurePreprocessorInit
  by_cases hc : npAllClose engineLatDeg.reverse lat = true <;>
    simp [hc, hge, hgg, hgr, isSetGrid]

/-- Witness for C9 at the concrete unrecognized tag "fancy". -/
theorem spec_c9_gridtype_dispatch_witness :
    (∀ e ∈ (featurePreprocessorInit [0] [0] [0] "fancy").events,
        isSetGrid e = false) ∧
    ((featurePreprocessorInit [0] [0] [0] "fancy").result = .ok ()
      ∨ (featurePreprocessorInit [0] [0] [0] "fancy").result
          = .error .gridMismatch) ∧
    (InitEvent.setGridGaussian
        ∈ (featurePreprocessorInit [0] [0] [0] "gaussian").events ∧
      InitEvent.setGridRegular
        ∉ (featurePreprocessorInit [0] [0] [0] "gaussian").events) ∧
    (InitEvent.setGridRegular
        ∈ (featurePreprocessorInit [0] [0] [0] "regular").events ∧
      InitEvent.setGridGaussian
        ∉ (featurePreprocessorInit [0] [0] [0] "regular").events) :=
  spec_c9_gridtype_dispatch [0] [0] [0] "fancy" (by decide) (by decide)

end FP
